import Mathlib

/-!
Verification of the Order Intake Service of the e-commerce backend
(`src/main.py`), a FastAPI application over a schema-less document store.

The embedding models:
* the data model (`OrderItem`, `Order`) with decimal quantities as `ℚ`;
* documents as association lists of `String` keys to `Value`s;
* the document store (`database.create_document` / `database.get_documents`,
  whose source is not in the repository) from the spec's Document Store
  contract: `insert(collection, doc) -> id`, `query(collection, filter,
  limit) -> docs`, a store-assigned unique identifier per insert, and an
  explicit failure mode (`failMsg`) standing for "unreachable / rejects the
  write" raising a `StoreError`;
* the endpoint handlers `create_order`, `list_orders`, `list_products` and
  the helper `serialize_doc`, translated from `src/main.py`.
-/

namespace ECom

/-- An order line item.  Modelled from the spec: `schemas.py` is not in the
repository; the spec gives "reference to a product (by title/id), unit price
(decimal), quantity (positive integer)". -/
structure OrderItem where
  product : String
  price : ℚ
  quantity : ℕ
deriving DecidableEq, Repr

/-- An order.  Modelled from the spec: `schemas.py` is not in the repository;
the spec gives "ordered sequence of OrderItem, declared subtotal (decimal)". -/
structure Order where
  items : List OrderItem
  subtotal : ℚ
deriving DecidableEq, Repr

/-- A field value of a schema-less document. -/
inductive Value where
  | str (s : String)
  | num (q : ℚ)
  | nat (n : ℕ)
  | bool (b : Bool)
  | items (l : List OrderItem)
deriving DecidableEq, Repr

/-- A schema-less document: an ordered association list of fields, as a
Python `dict` (keys unique in every document the system builds). -/
abbrev Doc := List (String × Value)

/-- An `HTTPException`: status code and detail message. -/
structure Err where
  status : ℕ
  detail : String
deriving DecidableEq, Repr

/-- Lookup of a key in an association list (`d[k]` on a Python dict). -/
def alookup {α : Type} (k : String) : List (String × α) → Option α
  | [] => none
  | (k', v) :: t => if k' = k then some v else alookup k t

/-- Remove a key from a document (`d.pop(k)` on a Python dict). -/
def dictErase (k : String) (d : Doc) : Doc :=
  d.filter (fun kv => ¬ kv.1 = k)

/-- Set a key in a document (`d[k] = v` on a Python dict): overwrite in
place when the key is present, append otherwise. -/
def dictSet (k : String) (v : Value) : Doc → Doc
  | [] => [(k, v)]
  | (k', v') :: t => if k' = k then (k, v) :: t else (k', v') :: dictSet k v t

/-- Decimal digit to character. -/
def digitChar : ℕ → Char
  | 0 => '0' | 1 => '1' | 2 => '2' | 3 => '3' | 4 => '4'
  | 5 => '5' | 6 => '6' | 7 => '7' | 8 => '8' | _ => '9'

/-- Character back to decimal digit. -/
def digitVal (c : Char) : ℕ := c.toNat - 48

/-- Modelled from the spec: the store-generated identifier surfaced "as an
opaque string" (`database.py` is not in the repository; the exact generation
scheme is an external-store concern).  We render the store's insert counter
in decimal. -/
def idString (n : ℕ) : String :=
  if n = 0 then "0" else String.mk ((Nat.digits 10 n).map digitChar).reverse

/-- Decode an identifier string back to the counter value. -/
def idDecode (s : String) : ℕ :=
  Nat.ofDigits 10 (s.data.reverse.map digitVal)

/-- Python `str()` of a document field value (used on the `_id` field by
`serialize_doc`). -/
def valueStr : Value → String
  | .str s => s
  | .num q => toString q
  | .nat n => idString n
  | .bool b => cond b "True" "False"
  | .items l => toString (repr l)

/-- The Document Store.  Modelled from the spec: `database.py` is not in the
repository.  `nextId` is the insert counter assigning unique identifiers,
`colls` maps collection names to their stored documents, and `failMsg`, when
set, makes every store call raise a `StoreError` with that message. -/
structure DocStore where
  nextId : ℕ
  colls : List (String × List Doc)
  failMsg : Option String
deriving DecidableEq, Repr

/-- The documents of a collection (empty when the collection is absent). -/
def getColl (name : String) (st : DocStore) : List Doc :=
  (alookup name st.colls).getD []

/-- Replace a collection's contents. -/
def setColl (name : String) (docs : List Doc) : List (String × List Doc) → List (String × List Doc)
  | [] => [(name, docs)]
  | (k, v) :: t => if k = name then (k, docs) :: t else (k, v) :: setColl name docs t

/-- Modelled from the spec: `database.create_document(collection, model)`:
`insert(collection: string, doc: object) -> id: string`.  Assigns `_id` from
the insert counter, appends the document to the collection, and returns the
identifier string; raises `StoreError` (no partial state, single atomic
insert) when the store is failing. -/
def create_document (coll : String) (doc : Doc) (st : DocStore) :
    Except String (String × DocStore) :=
  match st.failMsg with
  | some m => .error m
  | none =>
    let d : Doc := ("_id", Value.nat st.nextId) :: doc
    .ok (idString st.nextId,
      { nextId := st.nextId + 1
        colls := setColl coll (getColl coll st ++ [d]) st.colls
        failMsg := none })

/-- Does a document match an equality filter on every filter field? -/
def matchesFilter (filt : Doc) (d : Doc) : Bool :=
  filt.all (fun kv => alookup kv.1 d == some kv.2)

/-- Modelled from the spec: `database.get_documents(collection, filter,
limit)`: `query(collection: string, filter: object, limit?: int) ->
sequence of objects`, a pass-through query with equality filters; raises
`StoreError` when the store is failing. -/
def get_documents (coll : String) (filt : Doc) (limit : Option ℕ) (st : DocStore) :
    Except String (List Doc) :=
  match st.failMsg with
  | some m => .error m
  | none =>
    let docs := (getColl coll st).filter (matchesFilter filt)
    .ok (match limit with
         | some l => docs.take l
         | none => docs)

/-- `serialize_doc` from `src/main.py`: copy the document; when `_id` is
present, pop it and set `id` to its string rendering. -/
def serialize_doc (doc : Doc) : Doc :=
  if doc = [] then doc
  else
    match alookup "_id" doc with
    | none => doc
    | some v => dictSet "id" (Value.str (valueStr v)) (dictErase "_id" doc)

/-- The pydantic dump of an `Order` handed to the store by
`create_document("order", order)`. -/
def orderToDoc (o : Order) : Doc :=
  [("items", Value.items o.items), ("subtotal", Value.num o.subtotal)]

/-- `calc_subtotal = sum(item.price * item.quantity for item in order.items)`
from `create_order` in `src/main.py`. -/
def calcSubtotal (o : Order) : ℚ :=
  (o.items.map (fun i => i.price * (i.quantity : ℚ))).sum

/-- `create_order` (`POST /api/orders`) from `src/main.py`: reject with
`400 "Subtotal mismatch"` when `|calc_subtotal - order.subtotal| > 0.01`;
otherwise insert the order document and return `{"id": inserted_id}`; a
store exception becomes a 500 with its message. -/
def create_order (o : Order) (st : DocStore) : Except Err String × DocStore :=
  if |calcSubtotal o - o.subtotal| > 1/100 then
    (.error ⟨400, "Subtotal mismatch"⟩, st)
  else
    match create_document "order" (orderToDoc o) st with
    | .error m => (.error ⟨500, m⟩, st)
    | .ok (id, st') => (.ok id, st')

/-- `list_orders` (`GET /api/orders`) from `src/main.py`: fetch every order
document and serialize each; a store exception becomes a 500. -/
def list_orders (st : DocStore) : Except Err (List Doc) :=
  match get_documents "order" [] none st with
  | .error m => .error ⟨500, m⟩
  | .ok docs => .ok (docs.map serialize_doc)

/-- `filter_dict = {"category": category} if category else {}` from
`list_products` in `src/main.py`: a falsy category (absent or the empty
string) yields the empty filter. -/
def categoryFilter (category : Option String) : Doc :=
  match category with
  | none => []
  | some c => if c = "" then [] else [("category", Value.str c)]

/-- `list_products` (`GET /api/products`) from `src/main.py`: fetch the
product documents matching the optional category filter and serialize each;
a store exception becomes a 500. -/
def list_products (category : Option String) (st : DocStore) : Except Err (List Doc) :=
  match get_documents "product" (categoryFilter category) none st with
  | .error m => .error ⟨500, m⟩
  | .ok docs => .ok (docs.map serialize_doc)

/-- A fresh store with no documents. -/
def emptyStore : DocStore := { nextId := 0, colls := [], failMsg := none }

/-! ### Helper lemmas -/

theorem digitVal_digitChar : ∀ d : ℕ, d < 10 → digitVal (digitChar d) = d := by
  decide

theorem idDecode_idString (n : ℕ) : idDecode (idString n) = n := by
  unfold idString idDecode
  by_cases h : n = 0
  · subst h; decide
  · rw [if_neg h]
    have hdata : (String.mk ((Nat.digits 10 n).map digitChar).reverse).data
        = ((Nat.digits 10 n).map digitChar).reverse := rfl
    rw [hdata, List.reverse_reverse, List.map_map]
    have hmap : (Nat.digits 10 n).map (digitVal ∘ digitChar) = Nat.digits 10 n := by
      have h1 : (Nat.digits 10 n).map (digitVal ∘ digitChar) = (Nat.digits 10 n).map id := by
        apply List.map_congr_left
        intro a ha
        have ha10 : a < 10 := Nat.digits_lt_base (by norm_num) ha
        simp [Function.comp, digitVal_digitChar a ha10]
      simpa using h1
    rw [hmap, Nat.ofDigits_digits]

theorem idString_injective : Function.Injective idString := by
  intro a b h
  have := congrArg idDecode h
  rwa [idDecode_idString, idDecode_idString] at this

theorem idString_ne_empty (n : ℕ) : idString n ≠ "" := by
  unfold idString
  by_cases h : n = 0
  · rw [if_pos h]; decide
  · rw [if_neg h]
    intro hc
    have hdata : ((Nat.digits 10 n).map digitChar).reverse = ([] : List Char) :=
      congrArg String.data hc
    have : Nat.digits 10 n = [] := by
      have := congrArg List.reverse hdata
      rw [List.reverse_reverse] at this
      simpa using this
    exact h ((Nat.digits_eq_nil_iff_eq_zero).mp this)

theorem alookup_dictErase_self (k : String) (d : Doc) :
    alookup k (dictErase k d) = none := by
  induction d with
  | nil => rfl
  | cons kv t ih =>
    by_cases h : kv.1 = k
    · simpa [dictErase, h] using ih
    · simpa [dictErase, alookup, h] using ih

theorem alookup_dictErase_ne (k k' : String) (d : Doc) (h : k' ≠ k) :
    alookup k' (dictErase k d) = alookup k' d := by
  induction d with
  | nil => rfl
  | cons kv t ih =>
    by_cases hk : kv.1 = k
    · rw [dictErase] at ih ⊢
      simp only [List.filter_cons, hk]
      simp only [decide_not, decide_eq_true_eq] at *
      rw [if_neg (by simp [hk])]
      rw [ih, alookup, if_neg (by rw [hk]; exact fun hc => h hc.symm)]
    · rw [dictErase] at ih ⊢
      simp only [List.filter_cons]
      rw [if_pos (by simp [hk]), alookup, alookup]
      by_cases hkk : kv.1 = k'
      · simp [hkk]
      · simp only [if_neg hkk]
        exact ih

theorem alookup_dictSet_self (k : String) (v : Value) (d : Doc) :
    alookup k (dictSet k v d) = some v := by
  induction d with
  | nil => simp [dictSet, alookup]
  | cons kv t ih =>
    by_cases h : kv.1 = k
    · simp [dictSet, h, alookup]
    · simp only [dictSet, if_neg h]
      rw [alookup, if_neg h]
      exact ih

theorem alookup_dictSet_ne (k k' : String) (v : Value) (d : Doc) (h : k' ≠ k) :
    alookup k' (dictSet k v d) = alookup k' d := by
  have hkk' : ¬ k = k' := fun hc => h hc.symm
  induction d with
  | nil => simp only [dictSet, alookup, if_neg hkk']
  | cons kv t ih =>
    by_cases hk : kv.1 = k
    · have hne : ¬ kv.1 = k' := fun hc => h (hc.symm.trans hk)
      simp only [dictSet, if_pos hk, alookup, if_neg hkk', if_neg hne]
    · simp only [dictSet, if_neg hk, alookup]
      by_cases hkk : kv.1 = k'
      · simp [hkk]
      · simp only [if_neg hkk]
        exact ih

theorem alookup_setColl_self (name : String) (docs : List Doc)
    (l : List (String × List Doc)) : alookup name (setColl name docs l) = some docs := by
  induction l with
  | nil => simp [setColl, alookup]
  | cons kv t ih =>
    by_cases h : kv.1 = name
    · obtain ⟨k, v⟩ := kv
      simp only at h
      simp [setColl, h, alookup]
    · obtain ⟨k, v⟩ := kv
      simp only at h
      simp only [setColl, if_neg h]
      rw [alookup, if_neg h]
      exact ih

theorem alookup_setColl_ne (name n' : String) (docs : List Doc)
    (l : List (String × List Doc)) (h : n' ≠ name) :
    alookup n' (setColl name docs l) = alookup n' l := by
  have hnn' : ¬ name = n' := fun hc => h hc.symm
  induction l with
  | nil => simp only [setColl, alookup, if_neg hnn']
  | cons kv t ih =>
    obtain ⟨k, v⟩ := kv
    by_cases hk : k = name
    · have hne : ¬ k = n' := fun hc => h (hc.symm.trans hk)
      simp only [setColl, if_pos hk, alookup, if_neg hnn', if_neg hne]
    · simp only [setColl, if_neg hk, alookup]
      by_cases hkk : k = n'
      · simp [hkk]
      · simp only [if_neg hkk]
        exact ih

/-- The store state after a successful insert of order `o` into `st`. -/
def afterInsert (o : Order) (st : DocStore) : DocStore :=
  { nextId := st.nextId + 1
    colls := setColl "order"
      (getColl "order" st ++ [("_id", Value.nat st.nextId) :: orderToDoc o]) st.colls
    failMsg := none }

theorem create_order_ok (o : Order) (st : DocStore)
    (h : |calcSubtotal o - o.subtotal| ≤ 1/100) (hst : st.failMsg = none) :
    create_order o st = (.ok (idString st.nextId), afterInsert o st) := by
  unfold create_order create_document
  rw [if_neg (not_lt.mpr h), hst]
  rfl

theorem create_order_reject (o : Order) (st : DocStore)
    (h : |calcSubtotal o - o.subtotal| > 1/100) :
    create_order o st = (.error ⟨400, "Subtotal mismatch"⟩, st) := by
  unfold create_order
  rw [if_pos h]

theorem create_order_storefail (o : Order) (st : DocStore) (m : String)
    (h : |calcSubtotal o - o.subtotal| ≤ 1/100) (hst : st.failMsg = some m) :
    create_order o st = (.error ⟨500, m⟩, st) := by
  unfold create_order create_document
  rw [if_neg (not_lt.mpr h), hst]

theorem getColl_afterInsert (o : Order) (st : DocStore) :
    getColl "order" (afterInsert o st)
      = getColl "order" st ++ [("_id", Value.nat st.nextId) :: orderToDoc o] := by
  unfold getColl afterInsert
  rw [alookup_setColl_self]
  rfl

theorem serialize_doc_order (o : Order) (n : ℕ) :
    serialize_doc (("_id", Value.nat n) :: orderToDoc o)
      = [("items", Value.items o.items), ("subtotal", Value.num o.subtotal),
         ("id", Value.str (idString n))] := rfl

theorem filter_matchesFilter_nil (d : List Doc) : d.filter (matchesFilter []) = d := by
  simp [matchesFilter]

/-- The spec's success example: items = [{price: 100.0, quantity: 2},
{price: 50.0, quantity: 1}], subtotal = 250.0. -/
def exGood : Order := ⟨[⟨"p1", 100, 2⟩, ⟨"p2", 50, 1⟩], 250⟩

/-- The spec's failure example: items = [{price: 100.0, quantity: 2}],
subtotal = 150.0. -/
def exBad : Order := ⟨[⟨"p1", 100, 2⟩], 150⟩

/-- A store whose next call raises a `StoreError`. -/
def failStore : DocStore := { nextId := 0, colls := [], failMsg := some "store down" }

/-! ### Claims -/

/-- Claim C1: an order whose computed subtotal differs from the declared one
by strictly more than 0.01 is rejected by `create_order` with the 400
`HTTPException` "Subtotal mismatch", and the store is left untouched (no
document persisted). -/
theorem order_mismatch_rejected_no_write (o : Order) (st : DocStore)
    (h : |calcSubtotal o - o.subtotal| > 1/100) :
    create_order o st = (.error ⟨400, "Subtotal mismatch"⟩, st) :=
  create_order_reject o st h

/-- Witness for C1 at the spec's failing example on a fresh store. -/
theorem order_mismatch_rejected_no_write_witness :
    create_order exBad emptyStore = (.error ⟨400, "Subtotal mismatch"⟩, emptyStore) := by
  have h : |calcSubtotal exBad - exBad.subtotal| > 1/100 := by
    norm_num [calcSubtotal, exBad]
  exact order_mismatch_rejected_no_write exBad emptyStore h

/-- Claim C2: an order whose declared subtotal matches the computed one
within 0.01 is accepted by `create_order` (when the store is healthy) and a
non-empty identifier is returned. -/
theorem order_valid_accepted (o : Order) (st : DocStore)
    (h : |calcSubtotal o - o.subtotal| ≤ 1/100) (hst : st.failMsg = none) :
    (create_order o st).1 = .ok (idString st.nextId) ∧ idString st.nextId ≠ "" := by
  rw [create_order_ok o st h hst]
  exact ⟨rfl, idString_ne_empty st.nextId⟩

/-- Witness for C2 at the spec's success example on a fresh store: the
returned identifier is the non-empty string "0". -/
theorem order_valid_accepted_witness :
    (create_order exGood emptyStore).1 = .ok "0" ∧ ("0" : String) ≠ "" := by
  have h : |calcSubtotal exGood - exGood.subtotal| ≤ 1/100 := by
    norm_num [calcSubtotal, exGood]
  exact order_valid_accepted exGood emptyStore h rfl

/-- Claim C3: `create_order` performs zero store writes when validation
fails (the whole store state is unchanged, for every store, healthy or
failing — validation runs strictly before any persistence call) and exactly
one insert when validation succeeds (the order collection is extended by
exactly one document and every other collection is unchanged). -/
theorem order_write_frame (o : Order) (st : DocStore) :
    (|calcSubtotal o - o.subtotal| > 1/100 → (create_order o st).2 = st) ∧
    (|calcSubtotal o - o.subtotal| ≤ 1/100 → st.failMsg = none →
      getColl "order" (create_order o st).2
          = getColl "order" st ++ [("_id", Value.nat st.nextId) :: orderToDoc o] ∧
      ∀ c : String, c ≠ "order" → getColl c (create_order o st).2 = getColl c st) := by
  refine ⟨fun h => by rw [create_order_reject o st h], fun h hst => ?_⟩
  rw [create_order_ok o st h hst]
  refine ⟨getColl_afterInsert o st, fun c hc => ?_⟩
  unfold getColl afterInsert
  rw [alookup_setColl_ne _ _ _ _ hc]

/-- Witness for C3: the failing example leaves a failing store untouched;
the success example extends the order collection of a fresh store by one
document and leaves the product collection empty. -/
theorem order_write_frame_witness :
    (create_order exBad failStore).2 = failStore ∧
    getColl "order" (create_order exGood emptyStore).2
        = [("_id", Value.nat 0) :: orderToDoc exGood] ∧
    getColl "product" (create_order exGood emptyStore).2 = [] := by
  have hb : |calcSubtotal exBad - exBad.subtotal| > 1/100 := by
    norm_num [calcSubtotal, exBad]
  have hg : |calcSubtotal exGood - exGood.subtotal| ≤ 1/100 := by
    norm_num [calcSubtotal, exGood]
  refine ⟨(order_write_frame exBad failStore).1 hb, ?_, ?_⟩
  · exact ((order_write_frame exGood emptyStore).2 hg rfl).1
  · exact ((order_write_frame exGood emptyStore).2 hg rfl).2 "product" (by decide)

/-- Claim C4: on a successful submission the persisted document carries the
order's fields verbatim — in particular the client-declared subtotal, not
the recomputed `calc_subtotal` — together with the store-assigned `_id`,
and that store-assigned identifier is what `create_order` returns. -/
theorem order_persisted_verbatim (o : Order) (st : DocStore)
    (h : |calcSubtotal o - o.subtotal| ≤ 1/100) (hst : st.failMsg = none) :
    getColl "order" (create_order o st).2
        = getColl "order" st ++ [("_id", Value.nat st.nextId) :: orderToDoc o] ∧
    alookup "subtotal" (("_id", Value.nat st.nextId) :: orderToDoc o)
        = some (Value.num o.subtotal) ∧
    alookup "items" (("_id", Value.nat st.nextId) :: orderToDoc o)
        = some (Value.items o.items) ∧
    (create_order o st).1 = .ok (idString st.nextId) := by
  rw [create_order_ok o st h hst]
  exact ⟨getColl_afterInsert o st, rfl, rfl, rfl⟩

/-- Witness for C4 at a valid order whose declared subtotal (250.005) is
within tolerance of but different from the computed one (250): the stored
document carries 250.005. -/
theorem order_persisted_verbatim_witness :
    getColl "order" (create_order ⟨[⟨"p1", 100, 2⟩, ⟨"p2", 50, 1⟩], 250 + 1/200⟩ emptyStore).2
        = [("_id", Value.nat 0) :: orderToDoc ⟨[⟨"p1", 100, 2⟩, ⟨"p2", 50, 1⟩], 250 + 1/200⟩] ∧
    alookup "subtotal" (("_id", Value.nat 0)
        :: orderToDoc ⟨[⟨"p1", 100, 2⟩, ⟨"p2", 50, 1⟩], 250 + 1/200⟩)
        = some (Value.num (250 + 1/200)) ∧
    (create_order ⟨[⟨"p1", 100, 2⟩, ⟨"p2", 50, 1⟩], 250 + 1/200⟩ emptyStore).1
        = .ok "0" := by
  have h : |calcSubtotal ⟨[⟨"p1", 100, 2⟩, ⟨"p2", 50, 1⟩], 250 + 1/200⟩
      - (⟨[⟨"p1", 100, 2⟩, ⟨"p2", 50, 1⟩], (250 + 1/200 : ℚ)⟩ : Order).subtotal| ≤ 1/100 := by
    norm_num [calcSubtotal, abs_le]
  obtain ⟨h1, h2, -, h4⟩ :=
    order_persisted_verbatim ⟨[⟨"p1", 100, 2⟩, ⟨"p2", 50, 1⟩], 250 + 1/200⟩ emptyStore h rfl
  exact ⟨h1, h2, h4⟩

/-- Claim C5: an order with no items and declared subtotal 0 passes
validation and is persisted: `create_order` enforces no non-emptiness of
`order.items`. -/
theorem empty_order_accepted (st : DocStore) (hst : st.failMsg = none) :
    (create_order ⟨[], 0⟩ st).1 = .ok (idString st.nextId) ∧
    getColl "order" (create_order ⟨[], 0⟩ st).2
        = getColl "order" st ++ [("_id", Value.nat st.nextId) :: orderToDoc ⟨[], 0⟩] := by
  have h : |calcSubtotal (⟨[], 0⟩ : Order) - (⟨[], 0⟩ : Order).subtotal| ≤ 1/100 := by
    norm_num [calcSubtotal]
  rw [create_order_ok _ st h hst]
  exact ⟨rfl, getColl_afterInsert _ st⟩

/-- Witness for C5 on a fresh store. -/
theorem empty_order_accepted_witness :
    (create_order ⟨[], 0⟩ emptyStore).1 = .ok "0" ∧
    getColl "order" (create_order ⟨[], 0⟩ emptyStore).2
        = [("_id", Value.nat 0) :: orderToDoc ⟨[], 0⟩] :=
  empty_order_accepted emptyStore rfl

theorem get_documents_ok (coll : String) (filt : Doc) (st : DocStore)
    (hst : st.failMsg = none) :
    get_documents coll filt none st
      = .ok ((getColl coll st).filter (matchesFilter filt)) := by
  unfold get_documents
  rw [hst]

theorem list_orders_ok (st : DocStore) (hst : st.failMsg = none) :
    list_orders st = .ok ((getColl "order" st).map serialize_doc) := by
  unfold list_orders
  rw [get_documents_ok "order" [] st hst, filter_matchesFilter_nil]

theorem list_products_eval (category : Option String) (st : DocStore)
    (hst : st.failMsg = none) :
    list_products category st
      = .ok (((getColl "product" st).filter
          (matchesFilter (categoryFilter category))).map serialize_doc) := by
  unfold list_products
  rw [get_documents_ok "product" (categoryFilter category) st hst]

/-- Claim C6: a store failure during a valid submission surfaces as the 500
`HTTPException` carrying the store's message, with the store state
unchanged (no partial state, not retried within the call); and a validation
failure is always the 400 "Subtotal mismatch", never a 500, whatever the
store's state. -/
theorem store_failure_surfaced (o : Order) (st : DocStore) (m : String) :
    (st.failMsg = some m → |calcSubtotal o - o.subtotal| ≤ 1/100 →
        create_order o st = (.error ⟨500, m⟩, st)) ∧
    (|calcSubtotal o - o.subtotal| > 1/100 →
        create_order o st = (.error ⟨400, "Subtotal mismatch"⟩, st)) :=
  ⟨fun hst h => create_order_storefail o st m h hst,
   fun h => create_order_reject o st h⟩

/-- Witness for C6: on a failing store, the valid example yields the 500
with the store's message and the invalid example still yields the 400. -/
theorem store_failure_surfaced_witness :
    create_order exGood failStore = (.error ⟨500, "store down"⟩, failStore) ∧
    create_order exBad failStore = (.error ⟨400, "Subtotal mismatch"⟩, failStore) := by
  have hg : |calcSubtotal exGood - exGood.subtotal| ≤ 1/100 := by
    norm_num [calcSubtotal, exGood]
  have hb : |calcSubtotal exBad - exBad.subtotal| > 1/100 := by
    norm_num [calcSubtotal, exBad]
  exact ⟨(store_failure_surfaced exGood failStore "store down").1 rfl hg,
         (store_failure_surfaced exBad failStore "store down").2 hb⟩

/-- Claim C7: round-trip — an order successfully submitted appears in a
subsequent `list_orders` listing as a document whose `items` and `subtotal`
fields match the submitted order. -/
theorem order_roundtrip (o : Order) (st : DocStore)
    (h : |calcSubtotal o - o.subtotal| ≤ 1/100) (hst : st.failMsg = none) :
    ∃ id st' l d, create_order o st = (.ok id, st') ∧
      list_orders st' = .ok l ∧ d ∈ l ∧
      alookup "items" d = some (Value.items o.items) ∧
      alookup "subtotal" d = some (Value.num o.subtotal) := by
  refine ⟨idString st.nextId, afterInsert o st,
    (getColl "order" (afterInsert o st)).map serialize_doc,
    serialize_doc (("_id", Value.nat st.nextId) :: orderToDoc o),
    create_order_ok o st h hst, list_orders_ok _ rfl, ?_, ?_, ?_⟩
  · rw [getColl_afterInsert]
    exact List.mem_map_of_mem _ (List.mem_append_right _ (List.mem_singleton_self _))
  · rw [serialize_doc_order]
    exact rfl
  · rw [serialize_doc_order]
    exact rfl

/-- Witness for C7 at the spec's success example on a fresh store. -/
theorem order_roundtrip_witness :
    ∃ id st' l d, create_order exGood emptyStore = (.ok id, st') ∧
      list_orders st' = .ok l ∧ d ∈ l ∧
      alookup "items" d = some (Value.items exGood.items) ∧
      alookup "subtotal" d = some (Value.num exGood.subtotal) := by
  have h : |calcSubtotal exGood - exGood.subtotal| ≤ 1/100 := by
    norm_num [calcSubtotal, exGood]
  exact order_roundtrip exGood emptyStore h rfl

/-- Claim C8: submission is not idempotent — submitting the same valid
payload twice inserts two distinct documents and returns two distinct
store-assigned identifiers. -/
theorem resubmission_not_idempotent (o : Order) (st : DocStore)
    (h : |calcSubtotal o - o.subtotal| ≤ 1/100) (hst : st.failMsg = none) :
    ∃ id1 st1 id2 st2,
      create_order o st = (.ok id1, st1) ∧
      create_order o st1 = (.ok id2, st2) ∧
      id1 ≠ id2 ∧
      getColl "order" st2 = getColl "order" st
          ++ [("_id", Value.nat st.nextId) :: orderToDoc o,
              ("_id", Value.nat (st.nextId + 1)) :: orderToDoc o] ∧
      ("_id", Value.nat st.nextId) :: orderToDoc o
          ≠ ("_id", Value.nat (st.nextId + 1)) :: orderToDoc o := by
  refine ⟨idString st.nextId, afterInsert o st, idString (st.nextId + 1),
    afterInsert o (afterInsert o st),
    create_order_ok o st h hst, create_order_ok o (afterInsert o st) h rfl, ?_, ?_, ?_⟩
  · intro hc
    exact Nat.succ_ne_self st.nextId (idString_injective hc).symm
  · rw [getColl_afterInsert, getColl_afterInsert, List.append_assoc]
    exact rfl
  · simp

/-- Witness for C8 at the spec's success example on a fresh store. -/
theorem resubmission_not_idempotent_witness :
    ∃ id1 st1 id2 st2,
      create_order exGood emptyStore = (.ok id1, st1) ∧
      create_order exGood st1 = (.ok id2, st2) ∧
      id1 ≠ id2 ∧
      getColl "order" st2 = getColl "order" emptyStore
          ++ [("_id", Value.nat 0) :: orderToDoc exGood,
              ("_id", Value.nat 1) :: orderToDoc exGood] ∧
      ("_id", Value.nat 0) :: orderToDoc exGood
          ≠ ("_id", Value.nat 1) :: orderToDoc exGood := by
  have h : |calcSubtotal exGood - exGood.subtotal| ≤ 1/100 := by
    norm_num [calcSubtotal, exGood]
  exact resubmission_not_idempotent exGood emptyStore h rfl

/-- Claim C9: in the `list_orders` listing every stored document is passed
through `serialize_doc`, which removes the store's `_id` field, adds an
`id` field holding its string rendering, and leaves every other field
unchanged. -/
theorem listing_serializes_id (st : DocStore) (doc : Doc) (v : Value)
    (hst : st.failMsg = none) (hid : alookup "_id" doc = some v) :
    list_orders st = .ok ((getColl "order" st).map serialize_doc) ∧
    alookup "_id" (serialize_doc doc) = none ∧
    alookup "id" (serialize_doc doc) = some (Value.str (valueStr v)) ∧
    ∀ k, k ≠ "_id" → k ≠ "id" → alookup k (serialize_doc doc) = alookup k doc := by
  have hne : ¬ doc = [] := by
    intro hc
    rw [hc] at hid
    simp [alookup] at hid
  have hs : serialize_doc doc = dictSet "id" (Value.str (valueStr v)) (dictErase "_id" doc) := by
    unfold serialize_doc
    rw [if_neg hne, hid]
  refine ⟨list_orders_ok st hst, ?_, ?_, ?_⟩
  · rw [hs, alookup_dictSet_ne _ _ _ _ (by decide), alookup_dictErase_self]
  · rw [hs, alookup_dictSet_self]
  · intro k hk1 hk2
    rw [hs, alookup_dictSet_ne _ _ _ _ hk2, alookup_dictErase_ne _ _ _ hk1]

/-- Witness for C9 at a concrete stored document on a fresh store. -/
theorem listing_serializes_id_witness :
    list_orders emptyStore = .ok ((getColl "order" emptyStore).map serialize_doc) ∧
    alookup "_id" (serialize_doc [("_id", Value.nat 0), ("note", Value.str "x")]) = none ∧
    alookup "id" (serialize_doc [("_id", Value.nat 0), ("note", Value.str "x")])
        = some (Value.str (valueStr (Value.nat 0))) ∧
    alookup "note" (serialize_doc [("_id", Value.nat 0), ("note", Value.str "x")])
        = alookup "note" [("_id", Value.nat 0), ("note", Value.str "x")] := by
  obtain ⟨h1, h2, h3, h4⟩ := listing_serializes_id emptyStore
    [("_id", Value.nat 0), ("note", Value.str "x")] (Value.nat 0) rfl rfl
  exact ⟨h1, h2, h3, h4 "note" (by decide) (by decide)⟩

/-- A store with two products, one of category "a" and one whose category
is the empty string. -/
def prodStore : DocStore :=
  { nextId := 2
    colls := [("product",
      [[("_id", Value.nat 0), ("category", Value.str "a")],
       [("_id", Value.nat 1), ("category", Value.str "")]])]
    failMsg := none }

/-- Claim C10: `list_products` treats a falsy category — absent or the
empty string — as no filter, returning every product; a non-empty category
returns exactly the serialized documents matching the equality filter
`{category: <value>}`. -/
theorem products_category_filter (st : DocStore) (c : String)
    (hst : st.failMsg = none) :
    list_products none st = .ok ((getColl "product" st).map serialize_doc) ∧
    list_products (some "") st = .ok ((getColl "product" st).map serialize_doc) ∧
    (c ≠ "" → list_products (some c) st
        = .ok (((getColl "product" st).filter
            (matchesFilter [("category", Value.str c)])).map serialize_doc)) := by
  refine ⟨?_, ?_, fun hc => ?_⟩
  · rw [list_products_eval none st hst]
    rw [show categoryFilter none = [] from rfl, filter_matchesFilter_nil]
  · rw [list_products_eval (some "") st hst]
    rw [show categoryFilter (some "") = [] from rfl, filter_matchesFilter_nil]
  · rw [list_products_eval (some c) st hst]
    have hcf : categoryFilter (some c) = [("category", Value.str c)] := by
      show (if c = "" then [] else [("category", Value.str c)]) = [("category", Value.str c)]
      rw [if_neg hc]
    rw [hcf]

/-- Witness for C10 on a two-product store: the empty-string category
returns both products (not only the empty-category one), and category "a"
returns the matching documents. -/
theorem products_category_filter_witness :
    list_products none prodStore = .ok ((getColl "product" prodStore).map serialize_doc) ∧
    list_products (some "") prodStore
        = .ok ((getColl "product" prodStore).map serialize_doc) ∧
    list_products (some "a") prodStore
        = .ok (((getColl "product" prodStore).filter
            (matchesFilter [("category", Value.str "a")])).map serialize_doc) := by
  obtain ⟨h1, h2, h3⟩ := products_category_filter prodStore "a" rfl
  exact ⟨h1, h2, h3 (by decide)⟩

end ECom
